import Mathlib

/-!
Verification development for `radzone.py`: the time-base conversions
(`convert_chandra_time`, `convert_orbit_time`), the two file loaders
(`parse_shieldrate`, `parse_orbits`) and the legend labelling of `makeplot`.

Machine floats are modelled by exact rationals (`ℚ`); "within floating-point
rounding" claims are settled in the exact model, where the rounding error is 0.
Python `datetime` values are modelled by a proleptic-Gregorian
(year, day-of-year, time) record, exactly the information content relevant to
the program.
-/

namespace Radzone

/-! ## Proleptic Gregorian calendar, as Python's `datetime` uses it -/

/-- Gregorian leap-year rule (Python `calendar.isleap`). -/
def isLeap (y : ℕ) : Bool := (y % 4 == 0 && y % 100 != 0) || (y % 400 == 0)

/-- Number of days in year `y`. -/
def daysInYear (y : ℕ) : ℕ := if isLeap y then 366 else 365

/-- Days strictly before January 1 of year `y`, counted from 0001-01-01
(Python `date(y,1,1).toordinal() - 1`). -/
def daysBeforeYear (y : ℕ) : ℕ :=
  365 * (y - 1) + (y - 1) / 4 - (y - 1) / 100 + (y - 1) / 400

/-- Python `date.toordinal()` of day-of-year `doy` (1-based) of `year`. -/
def toordinal (year doy : ℕ) : ℕ := daysBeforeYear year + doy

/-- A Python naive `datetime`, in (year, day-of-year, time-of-day) form; this
is the information `radzone.py` produces and consumes (the `%j` directive). -/
structure PyDateTime where
  year : ℕ
  doy : ℕ
  hour : ℕ
  minute : ℕ
  second : ℕ
  usec : ℕ
deriving DecidableEq, Repr

def dtOrdinal (d : PyDateTime) : ℕ := toordinal d.year d.doy

/-- Seconds elapsed since midnight, exactly. -/
def daySeconds (d : PyDateTime) : ℚ :=
  3600 * d.hour + 60 * d.minute + d.second + (d.usec : ℚ) / 1000000

/-- POSIX timestamp of a naive `datetime` read as UTC:
`toordinal(1970-01-01) = 719163`. -/
def dtPosixSeconds (d : PyDateTime) : ℚ :=
  ((dtOrdinal d : ℚ) - 719163) * 86400 + daySeconds d

/-- matplotlib 2.x `date2num`: days since 0001-01-01 (with day 1 = 0001-01-01),
the value a `datetime` takes on the renderer's date axis. -/
def date2num (d : PyDateTime) : ℚ :=
  (dtOrdinal d : ℚ) + daySeconds d / 86400

/-- matplotlib's `EPOCH_OFFSET = date2num(datetime(1970, 1, 1))`. -/
def EPOCH_OFFSET : ℚ := date2num ⟨1970, 1, 0, 0, 0, 0⟩

/-- matplotlib 2.x `epoch2num`: POSIX seconds to date-axis days. -/
def epoch2num (e : ℚ) : ℚ := EPOCH_OFFSET + e / 86400

/-- `(datetime(1998,1,1) - datetime(1970,1,1)).total_seconds()` — the constant
`delta` computed inside `convert_chandra_time` (lines 104-110 of radzone.py). -/
def cxcEpochOffset : ℚ := 86400 * ((toordinal 1998 1 : ℚ) - (toordinal 1970 1 : ℚ))

/-! ## `convert_chandra_time` (radzone.py lines 91-120)

The Python function first reads `rawtimes[0]` (raising `IndexError` on an
empty sequence, hence the `Option`), anchors the axis at
`epoch2num(delta + rawtimes[0])`, and maps the whole sequence through the
relative-offset formula. -/

def convert_chandra_time (rawtimes : List ℚ) : Option (List ℚ) :=
  match rawtimes with
  | [] => none
  | t0 :: _ =>
    let delta_time := cxcEpochOffset + t0
    let plotdate_start := epoch2num delta_time
    some (rawtimes.map fun t => (t - t0) / 86400 + plotdate_start)

/-- Modelled from the spec: the "independent per-sample full conversion" of a
mission-epoch timestamp (epoch2num applied to the 1998-to-1970 offset plus the
raw sample), the comparison point of claim C2. -/
def specFullConversion (t : ℚ) : ℚ := epoch2num (cxcEpochOffset + t)

/-! ## `convert_orbit_time` (radzone.py lines 123-138)

The Python function maps `datetime.strptime(·, "%Y:%j:%H:%M:%S.%f")` over the
input strings, appending the results; the first `ValueError` aborts the run.
We model CPython's `_strptime` for this format directive by directive
(ASCII digits; the source's orbit-table timestamps are ASCII):
  `%Y` = exactly four digits; `%j` = one to three digits with value 1..366;
  `%H`/`%M` = one or two digits with value at most 23 / 59; `%S` = one or two
  digits (the regex admits leap seconds 60-61, which the `datetime`
  constructor then rejects, so the composite accepts at most 59); `%f` = one
  to six digits, right-padded with zeros to microseconds.  The whole string
  must be consumed ("unconverted data remains" otherwise), the day-of-year is
  resolved through `date.fromordinal`, which rolls day 366 of a 365-day year
  into January 1 of the next year, and the `datetime` constructor requires
  `1 <= year <= 9999`. -/

/-- ASCII digit test (the character class matched by the `_strptime` regexes
on ASCII input). -/
def isDig (c : Char) : Bool := 48 ≤ c.toNat && c.toNat ≤ 57

/-- Numeric value of an ASCII digit. -/
def digitVal (c : Char) : ℕ := c.toNat - 48

/-- Greedily consume at most `k` leading digits, returning their values and
the rest of the input. -/
def takeDigits : ℕ → List Char → List ℕ × List Char
  | 0, cs => ([], cs)
  | _ + 1, [] => ([], [])
  | k + 1, c :: cs =>
    if isDig c then
      let r := takeDigits k cs
      (digitVal c :: r.1, r.2)
    else ([], c :: cs)

/-- Value of a big-endian digit list. -/
def digitsToNat (ds : List ℕ) : ℕ := ds.foldl (fun a d => 10 * a + d) 0

/-- Parse a numeric field of at most `w` digits: value, digit count, rest. -/
def parseField (w : ℕ) (cs : List Char) : Option (ℕ × ℕ × List Char) :=
  let r := takeDigits w cs
  if r.1.isEmpty then none else some (digitsToNat r.1, r.1.length, r.2)

/-- Consume one expected literal character. -/
def expectChar (c : Char) : List Char → Option (List Char)
  | [] => none
  | x :: cs => if x = c then some cs else none

/-- `datetime.strptime(s, "%Y:%j:%H:%M:%S.%f")` on an ASCII character list:
`none` models a raised `ValueError`. -/
def strptimeChars (cs : List Char) : Option PyDateTime :=
  match parseField 4 cs with
  | none => none
  | some (y, yn, r1) =>
    if yn ≠ 4 then none else
    match expectChar ':' r1 with
    | none => none
    | some r2 =>
      match parseField 3 r2 with
      | none => none
      | some (j, _, r3) =>
        if j < 1 ∨ 366 < j then none else
        match expectChar ':' r3 with
        | none => none
        | some r4 =>
          match parseField 2 r4 with
          | none => none
          | some (h, _, r5) =>
            if 23 < h then none else
            match expectChar ':' r5 with
            | none => none
            | some r6 =>
              match parseField 2 r6 with
              | none => none
              | some (m, _, r7) =>
                if 59 < m then none else
                match expectChar ':' r7 with
                | none => none
                | some r8 =>
                  match parseField 2 r8 with
                  | none => none
                  | some (sec, _, r9) =>
                    if 59 < sec then none else
                    match expectChar '.' r9 with
                    | none => none
                    | some r10 =>
                      match parseField 6 r10 with
                      | none => none
                      | some (f, fn, r11) =>
                        if r11 ≠ [] then none else
                        if j ≤ daysInYear y then
                          if y < 1 ∨ 9999 < y then none
                          else some ⟨y, j, h, m, sec, f * 10 ^ (6 - fn)⟩
                        else
                          if y + 1 < 1 ∨ 9999 < y + 1 then none
                          else some ⟨y + 1, j - daysInYear y, h, m, sec,
                            f * 10 ^ (6 - fn)⟩

/-- `datetime.strptime(s, "%Y:%j:%H:%M:%S.%f")` on a string. -/
def strptimeOrbit (s : String) : Option PyDateTime := strptimeChars s.data

/-- radzone.py lines 132-138: the loop appending `strptime` results; a raised
`ValueError` (modelled by `none`) propagates and aborts the whole run, so no
row is ever skipped. -/
def convert_orbit_time : List String → Option (List PyDateTime)
  | [] => some []
  | st :: rest =>
    match strptimeOrbit st with
    | none => none
    | some d =>
      match convert_orbit_time rest with
      | none => none
      | some ds => some (d :: ds)

/-! Decimal formatting, for the round-trip claim: `strftime` with the same
format string zero-pads `%Y` to four digits, `%j` to three, `%H`, `%M`, `%S`
to two and `%f` to six. -/

/-- The `w` low-order decimal digit values of `n`, big-endian (left
zero-padded). -/
def padVals : ℕ → ℕ → List ℕ
  | 0, _ => []
  | w + 1, n => padVals w (n / 10) ++ [n % 10]

/-- ASCII digit character of a value `v < 10`. -/
def digitChar (v : ℕ) : Char := Char.ofNat (48 + v)

/-- `n` printed in exactly `w` decimal digits, left zero-padded. -/
def padChars (w n : ℕ) : List Char := (padVals w n).map digitChar

/-- `d.strftime("%Y:%j:%H:%M:%S.%f")` as a character list. -/
def formatChars (d : PyDateTime) : List Char :=
  padChars 4 d.year ++ ':' :: (padChars 3 d.doy ++ ':' ::
    (padChars 2 d.hour ++ ':' :: (padChars 2 d.minute ++ ':' ::
      (padChars 2 d.second ++ '.' :: padChars 6 d.usec))))

/-- `d.strftime("%Y:%j:%H:%M:%S.%f")` as a string — the standard decomposition
of a normalized time back into a calendar string. -/
def formatOrbit (d : PyDateTime) : String := String.mk (formatChars d)

/-- Modelled from the spec: the exact fixed-width pattern
`YYYY:DayOfYear:HH:MM:SS.ffffff` — a 4-digit year, 3-digit day-of-year,
zero-padded 2-digit time fields and a 6-digit microsecond fraction, claim C5's
description of the accepted language, to be compared with `strptimeOrbit`. -/
def specFixedWidthPattern (s : String) : Bool :=
  match s.data with
  | [y1, y2, y3, y4, a1, j1, j2, j3, a2, h1, h2, a3, m1, m2, a4, s1, s2, a5,
     f1, f2, f3, f4, f5, f6] =>
    isDig y1 && isDig y2 && isDig y3 && isDig y4 && a1 == ':' &&
    isDig j1 && isDig j2 && isDig j3 && a2 == ':' &&
    isDig h1 && isDig h2 && a3 == ':' &&
    isDig m1 && isDig m2 && a4 == ':' &&
    isDig s1 && isDig s2 && a5 == '.' &&
    isDig f1 && isDig f2 && isDig f3 && isDig f4 && isDig f5 && isDig f6
  | _ => false

/-! ## Loaders (radzone.py lines 30-88)

The loaders check file existence with `os.path.isfile` before any
`ascii.read`; on a missing file they print a message and call `sys.exit(1)`.
The filesystem is abstracted as an existence predicate plus table contents per
path; an execution yields a result (`sys.exit` code, uncaught exception, or
the returned dictionary) together with the ordered trace of user-facing
messages and file-parse events. -/

/-- Columns of a rate MSID csv file used by `parse_shieldrate`. -/
structure RateFile where
  times : List ℚ
  vals : List ℚ
  midvals : List ℚ
deriving DecidableEq

/-- Columns of the orbit-table csv file used by `parse_orbits`. -/
structure OrbitFile where
  start_radzone : List String
  stop_radzone : List String
deriving DecidableEq

/-- Abstract read-only filesystem. -/
structure FS where
  isfile : String → Bool
  rateFile : String → RateFile
  orbitFile : String → OrbitFile

/-- A filesystem with no files, for concrete runs of the loaders. -/
def emptyFS : FS :=
  { isfile := fun _ => false
    rateFile := fun _ => ⟨[], [], []⟩
    orbitFile := fun _ => ⟨[], []⟩ }

/-- The user-facing messages printed by the loaders. -/
inductive Msg where
  | shieldrateParsed
  | shieldrateMissing
  | orbitsParsed
  | orbitsMissing
deriving DecidableEq

/-- Observable events of a loader run: a printed message or an input file
being parsed by `ascii.read`. -/
inductive Ev where
  | msg (m : Msg)
  | parsed (path : String)
deriving DecidableEq

/-- How a Python run can stop early: an explicit `sys.exit(code)`, or an
uncaught exception (named by its class). -/
inductive PyExit where
  | exitCode (n : ℕ)
  | exn (name : String)
deriving DecidableEq

/-- The dictionary returned by `parse_shieldrate`. -/
structure Shieldrate where
  Time : List ℚ
  Rate : List ℚ
  FullTime : List ℚ
  FullRate : List ℚ
deriving DecidableEq

/-- The dictionary returned by `parse_orbits`. -/
structure Orbit where
  RadzoneEntry : List PyDateTime
  RadzoneExit : List PyDateTime
deriving DecidableEq

/-- radzone.py lines 30-60: both resolution-tier files are existence-checked
before either is read; a missing file prints a message and exits with status
1; `convert_chandra_time` on an empty times column raises `IndexError`. -/
def parse_shieldrate (fs : FS) (msid_directory n5min nFull : String) :
    Except PyExit Shieldrate × List Ev :=
  if fs.isfile (msid_directory ++ n5min) && fs.isfile (msid_directory ++ nFull) then
    let fivemin := fs.rateFile (msid_directory ++ n5min)
    let full := fs.rateFile (msid_directory ++ nFull)
    let evs := [Ev.parsed (msid_directory ++ n5min),
                Ev.parsed (msid_directory ++ nFull),
                Ev.msg Msg.shieldrateParsed]
    match convert_chandra_time fivemin.times, convert_chandra_time full.times with
    | some t, some ft =>
      (Except.ok ⟨t, fivemin.midvals, ft, full.vals⟩, evs)
    | _, _ => (Except.error (PyExit.exn ("IndexError")), evs)
  else
    (Except.error (PyExit.exitCode 1), [Ev.msg Msg.shieldrateMissing])

/-- radzone.py lines 63-88: existence check, then `ascii.read`, then the two
orbit-time conversions (`ValueError` on a malformed timestamp). -/
def parse_orbits (fs : FS) (dir filename : String) :
    Except PyExit Orbit × List Ev :=
  if fs.isfile (dir ++ filename) then
    let msid := fs.orbitFile (dir ++ filename)
    let evs := [Ev.parsed (dir ++ filename), Ev.msg Msg.orbitsParsed]
    match convert_orbit_time msid.start_radzone with
    | none => (Except.error (PyExit.exn ("ValueError")), evs)
    | some entry =>
      match convert_orbit_time msid.stop_radzone with
      | none => (Except.error (PyExit.exn ("ValueError")), evs)
      | some exit1 => (Except.ok ⟨entry, exit1⟩, evs)
  else
    (Except.error (PyExit.exitCode 1), [Ev.msg Msg.orbitsMissing])

/-! ## Renderer legend labels (radzone.py lines 153-195)

`makeplot` iterates `enumerate(zip(entries, exits))` and draws, per interval,
an entry line, an exit line and a shaded span, labelling each only when
`i == 0`; then the threshold line and two rate series, always labelled.
`ax.legend()` shows one entry per artist whose label is non-empty and does not
start with an underscore, in drawing order. -/

/-- The artist labels created by `makeplot`, in drawing order. -/
def makeplotArtistLabels (entries exits : List PyDateTime) : List String :=
  ((List.range (min entries.length exits.length)).flatMap fun i =>
    [if i = 0 then ("Radzone Entry") else (""),
     if i = 0 then ("Radzone Exit") else (""),
     if i = 0 then ("Radzone Passage") else ("")]) ++
  [("SCS 107 Threshold (65,000 cps)"),
   ("HRC Shield Rate (2SHEV1RT), 5 minute"),
   ("HRC Shield Rate (2SHEV1RT), Full resolution")]

/-- matplotlib's legend filter: artists with an empty label or a label
starting with an underscore get no legend entry. -/
def legendVisible (labels : List String) : List String :=
  labels.filter fun l => !(l == ("")) && !(l.data.head? == some '_')

/-- The legend entries `makeplot` produces for a given interval sequence. -/
def makeplotLegend (entries exits : List PyDateTime) : List String :=
  legendVisible (makeplotArtistLabels entries exits)

/-- The range invariant of `datetime` values produced by
`strptime(·, "%Y:%j:%H:%M:%S.%f")`. -/
def ValidDT (d : PyDateTime) : Prop :=
  1 ≤ d.year ∧ d.year ≤ 9999 ∧ 1 ≤ d.doy ∧ d.doy ≤ daysInYear d.year ∧
  d.hour ≤ 23 ∧ d.minute ≤ 59 ∧ d.second ≤ 59 ∧ d.usec ≤ 999999

/-! Basic facts about the conversion constants. -/

theorem EPOCH_OFFSET_eq : EPOCH_OFFSET = 719163 := by
  norm_num [EPOCH_OFFSET, date2num, dtOrdinal, toordinal, daysBeforeYear, daySeconds]

theorem cxcEpochOffset_eq : cxcEpochOffset = 883612800 := by
  norm_num [cxcEpochOffset, toordinal, daysBeforeYear]

/-- `date2num` agrees with `epoch2num` of the POSIX timestamp: a `datetime`
and its POSIX-second encoding land on the same date-axis value. -/
theorem date2num_eq_epoch2num_posix (d : PyDateTime) :
    date2num d = epoch2num (dtPosixSeconds d) := by
  rw [date2num, epoch2num, dtPosixSeconds, EPOCH_OFFSET_eq]
  ring


/-! ## Helper lemmas -/

theorem map_getD (f : ℚ → ℚ) : ∀ (l : List ℚ) (i : ℕ), i < l.length →
    (l.map f).getD i 0 = f (l.getD i 0)
  | [], i, h => absurd h (by simp)
  | _ :: _, 0, _ => rfl
  | _ :: l, i + 1, h => map_getD f l i (by simpa using h)

/-! ## Claims about `convert_chandra_time` -/

/-- C9: on a single-sample sequence, `convert_chandra_time` does not fail and
returns the one-element sequence holding the anchored start offset
(`epoch2num` of the epoch delta plus the sample); the zero-length relative
delta contributes nothing. -/
theorem single_sample_total (t : ℚ) :
    convert_chandra_time [t] = some [epoch2num (cxcEpochOffset + t)] := by
  simp [convert_chandra_time]

/-- C10: `convert_chandra_time` is partial exactly on the empty sequence: it
reads the first element before anything else, so the empty input fails
(`IndexError`, modelled by `none`), while every non-empty input succeeds. -/
theorem chandra_time_partial_on_empty :
    convert_chandra_time [] = none ∧
    ∀ (t0 : ℚ) (rest : List ℚ), (convert_chandra_time (t0 :: rest)).isSome = true :=
  ⟨rfl, fun _ _ => rfl⟩

/-- C2: the anchored conversion agrees with the spec's independent per-sample
full conversion at every index, within 1e-6 days; in the exact-rational model
of the float arithmetic the two are equal, so the difference is 0. -/
theorem anchored_conversion_close (raw : List ℚ) (i : ℕ) (hi : i < raw.length) :
    ∃ out, convert_chandra_time raw = some out ∧
      |out.getD i 0 - specFullConversion (raw.getD i 0)| ≤ 1 / 1000000 := by
  match raw with
  | t0 :: rest =>
    refine ⟨_, rfl, ?_⟩
    rw [map_getD _ _ i hi]
    have h0 : ((t0 :: rest).getD i 0 - t0) / 86400 + epoch2num (cxcEpochOffset + t0)
        - specFullConversion ((t0 :: rest).getD i 0) = 0 := by
      simp only [specFullConversion, epoch2num]
      ring
    rw [h0, abs_zero]
    norm_num

/-- C3: `convert_chandra_time` is strictly monotone: a strictly smaller raw
timestamp converts to a strictly smaller plot-date value, so input order is
preserved. -/
theorem chandra_time_strict_mono (raw : List ℚ) (i j : ℕ)
    (hi : i < raw.length) (hj : j < raw.length)
    (hlt : raw.getD i 0 < raw.getD j 0) :
    ∃ out, convert_chandra_time raw = some out ∧ out.getD i 0 < out.getD j 0 := by
  match raw with
  | t0 :: rest =>
    refine ⟨_, rfl, ?_⟩
    rw [map_getD _ _ i hi, map_getD _ _ j hj]
    have h86 : (0:ℚ) < 86400 := by norm_num
    have hdiv : ((t0 :: rest).getD i 0 - t0) / 86400 <
        ((t0 :: rest).getD j 0 - t0) / 86400 :=
      (div_lt_div_iff_of_pos_right h86).mpr (sub_lt_sub_right hlt t0)
    linarith

/-- C8: a first sample equal to the negated 1998-to-1970 offset (the 1970
Unix reference epoch in mission time) converts to exactly the renderer's
zero-reference constant `epoch2num 0`. -/
theorem unix_epoch_sample_converts_to_zero_reference (t0 : ℚ) (rest : List ℚ)
    (h : t0 = -cxcEpochOffset) :
    ∃ out, convert_chandra_time (t0 :: rest) = some out ∧
      out.head? = some (epoch2num 0) := by
  refine ⟨_, rfl, ?_⟩
  simp [h]

/-- C1: for the two encodings of one physical instant — a mission-epoch float
(first element of `convert_chandra_time`'s input) and a calendar string
(input of `convert_orbit_time`) — both conversions land on the renderer's
common continuous-days axis with numerically equal values: the `datetime`
returned by `convert_orbit_time` takes the date-axis value `date2num d`, and
`convert_chandra_time` yields exactly that number (exactly, in the
exact-rational model of the float chain). -/
theorem cross_encoding_consistency (s : String) (d : PyDateTime) (c : ℚ)
    (hp : convert_orbit_time [s] = some [d])
    (hc : cxcEpochOffset + c = dtPosixSeconds d) :
    convert_chandra_time [c] = some [date2num d] ∧
    convert_orbit_time [s] = some [d] := by
  refine ⟨?_, hp⟩
  simp only [convert_chandra_time, hc, date2num_eq_epoch2num_posix]
  norm_num

/-- C1 witness: the spec's own example instant, 2000:003:15:27:47.271000,
whose CXC-seconds encoding is 63300467.271 × 10³ ms = 63300467271/1000 s. -/
theorem cross_encoding_consistency_witness :
    convert_chandra_time [(63300467271 : ℚ) / 1000] =
      some [date2num ⟨2000, 3, 15, 27, 47, 271000⟩] ∧
    convert_orbit_time [("2000:003:15:27:47.271000")] =
      some [⟨2000, 3, 15, 27, 47, 271000⟩] :=
  cross_encoding_consistency ("2000:003:15:27:47.271000")
    ⟨2000, 3, 15, 27, 47, 271000⟩ ((63300467271 : ℚ) / 1000)
    (by decide)
    (by norm_num [cxcEpochOffset, dtPosixSeconds, dtOrdinal, toordinal,
      daysBeforeYear, daySeconds])

/-- C4: a missing required input file makes either loader print its message
and stop with `sys.exit(1)` before any file is parsed (the trace holds the
message only, no parse event), and an explicit exit status other than 1 is
never produced by either loader. -/
theorem missing_file_reports_and_exits_one :
    (∀ (fs : FS) (dir n5 nf : String),
      (fs.isfile (dir ++ n5) && fs.isfile (dir ++ nf)) = false →
      parse_shieldrate fs dir n5 nf =
        (Except.error (PyExit.exitCode 1), [Ev.msg Msg.shieldrateMissing])) ∧
    (∀ (fs : FS) (dir fn : String),
      fs.isfile (dir ++ fn) = false →
      parse_orbits fs dir fn =
        (Except.error (PyExit.exitCode 1), [Ev.msg Msg.orbitsMissing])) ∧
    (∀ (fs : FS) (dir n5 nf : String) (n : ℕ),
      (parse_shieldrate fs dir n5 nf).1 = Except.error (PyExit.exitCode n) →
      n = 1) ∧
    (∀ (fs : FS) (dir fn : String) (n : ℕ),
      (parse_orbits fs dir fn).1 = Except.error (PyExit.exitCode n) → n = 1) := by
  refine ⟨?_, ?_, ?_, ?_⟩
  · intro fs dir n5 nf h
    simp [parse_shieldrate, h]
  · intro fs dir fn h
    simp [parse_orbits, h]
  · intro fs dir n5 nf n h
    simp only [parse_shieldrate] at h
    split at h
    · split at h <;> simp_all
    · simp_all
  · intro fs dir fn n h
    simp only [parse_orbits] at h
    split at h
    · split at h
      · simp_all
      · split at h <;> simp_all
    · simp_all

/-- C4 witness: on a filesystem with no files, both loaders (called with the
program's actual directory and file names) report and exit with status 1. -/
theorem missing_file_reports_and_exits_one_witness :
    parse_shieldrate emptyFS ("msids/") ("2SHEV1RT_5min.csv") ("2SHEV1RT_full.csv") =
      (Except.error (PyExit.exitCode 1), [Ev.msg Msg.shieldrateMissing]) ∧
    parse_orbits emptyFS ("spacecraft_events/") ("orbit_table.csv") =
      (Except.error (PyExit.exitCode 1), [Ev.msg Msg.orbitsMissing]) :=
  ⟨missing_file_reports_and_exits_one.1 emptyFS ("msids/")
      ("2SHEV1RT_5min.csv") ("2SHEV1RT_full.csv") rfl,
    missing_file_reports_and_exits_one.2.1 emptyFS ("spacecraft_events/")
      ("orbit_table.csv") rfl⟩

/-- Helper: intervals with positive index contribute only empty labels, which
the legend filter removes. -/
theorem legendVisible_shifted_triples (l : List ℕ) :
    legendVisible ((l.map Nat.succ).flatMap fun i =>
      [if i = 0 then ("Radzone Entry") else (""),
       if i = 0 then ("Radzone Exit") else (""),
       if i = 0 then ("Radzone Passage") else ("")]) = [] := by
  induction l with
  | nil => rfl
  | cons a l ih =>
    simpa [legendVisible, List.flatMap_cons, Nat.succ_ne_zero] using ih

/-- Helper: the legend filter distributes over concatenated artist lists. -/
theorem legendVisible_append (l1 l2 : List String) :
    legendVisible (l1 ++ l2) = legendVisible l1 ++ legendVisible l2 :=
  List.filter_append ..

/-- C6 counterexample: for the empty interval sequence (N = 0) the loop body
never runs, so the legend holds no entry for the interval-entry line, the
interval-exit line or the passage band — not "exactly one" as claimed. -/
theorem legend_no_interval_entries_at_zero :
    ¬ ((makeplotLegend [] []).count ("Radzone Entry") = 1 ∧
       (makeplotLegend [] []).count ("Radzone Exit") = 1 ∧
       (makeplotLegend [] []).count ("Radzone Passage") = 1) := by
  decide

/-- C6 amended: for every interval sequence with at least one interval, the
renderer produces exactly one legend entry for the interval-entry line, one
for the interval-exit line and one for the passage band, regardless of N,
because only the i = 0 occurrence is labelled; for N = 0 none are produced. -/
theorem legend_single_entries_of_nonempty (entries exits : List PyDateTime)
    (h : 1 ≤ min entries.length exits.length) :
    (makeplotLegend entries exits).count ("Radzone Entry") = 1 ∧
    (makeplotLegend entries exits).count ("Radzone Exit") = 1 ∧
    (makeplotLegend entries exits).count ("Radzone Passage") = 1 := by
  obtain ⟨m, hm⟩ : ∃ m, min entries.length exits.length = m + 1 :=
    ⟨min entries.length exits.length - 1, by omega⟩
  unfold makeplotLegend makeplotArtistLabels
  rw [hm, List.range_succ_eq_map, List.flatMap_cons, legendVisible_append,
    legendVisible_append, legendVisible_shifted_triples]
  decide

/-- C6 amended witness: five identical intervals give exactly one legend
entry for each of the three per-interval marks. -/
theorem legend_single_entries_of_nonempty_witness :
    (makeplotLegend (List.replicate 5 ⟨2000, 3, 15, 27, 47, 271000⟩)
        (List.replicate 5 ⟨2000, 4, 1, 2, 3, 400000⟩)).count ("Radzone Entry") = 1 ∧
    (makeplotLegend (List.replicate 5 ⟨2000, 3, 15, 27, 47, 271000⟩)
        (List.replicate 5 ⟨2000, 4, 1, 2, 3, 400000⟩)).count ("Radzone Exit") = 1 ∧
    (makeplotLegend (List.replicate 5 ⟨2000, 3, 15, 27, 47, 271000⟩)
        (List.replicate 5 ⟨2000, 4, 1, 2, 3, 400000⟩)).count ("Radzone Passage") = 1 :=
  legend_single_entries_of_nonempty _ _ (by decide)

/-! ## Digit, padding and field lemmas for the strptime model -/

theorem daysInYear_or (y : ℕ) : daysInYear y = 365 ∨ daysInYear y = 366 := by
  unfold daysInYear
  split
  · exact Or.inr rfl
  · exact Or.inl rfl

theorem digitChar_isDig {v : ℕ} (h : v < 10) : isDig (digitChar v) = true := by
  interval_cases v <;> decide

theorem digitChar_val {v : ℕ} (h : v < 10) : digitVal (digitChar v) = v := by
  interval_cases v <;> decide

theorem padVals_length (w n : ℕ) : (padVals w n).length = w := by
  induction w generalizing n with
  | zero => rfl
  | succ w ih => simp [padVals, ih]

theorem padVals_lt (w n : ℕ) : ∀ v ∈ padVals w n, v < 10 := by
  induction w generalizing n with
  | zero => simp [padVals]
  | succ w ih =>
    intro v hv
    simp only [padVals, List.mem_append, List.mem_singleton] at hv
    rcases hv with h1 | rfl
    · exact ih (n / 10) v h1
    · exact Nat.mod_lt _ (by norm_num)

theorem digitsToNat_append (ds : List ℕ) (v : ℕ) :
    digitsToNat (ds ++ [v]) = 10 * digitsToNat ds + v := by
  unfold digitsToNat
  rw [List.foldl_append]
  rfl

theorem digitsToNat_padVals (w n : ℕ) : digitsToNat (padVals w n) = n % 10 ^ w := by
  induction w generalizing n with
  | zero => simp [padVals, digitsToNat, Nat.mod_one]
  | succ w ih =>
    rw [padVals, digitsToNat_append, ih, pow_succ' 10 w, Nat.mod_mul]
    omega

theorem takeDigits_exact (vs : List ℕ) (rest : List Char) (h10 : ∀ v ∈ vs, v < 10) :
    takeDigits vs.length (vs.map digitChar ++ rest) = (vs, rest) := by
  induction vs with
  | nil => rfl
  | cons v vs ih =>
    have hv : v < 10 := h10 v (List.mem_cons_self v vs)
    simp [takeDigits, digitChar_isDig hv, digitChar_val hv,
      ih (fun u hu => h10 u (List.mem_cons_of_mem v hu))]

theorem takeDigits_padChars (w n : ℕ) (rest : List Char) :
    takeDigits w (padChars w n ++ rest) = (padVals w n, rest) := by
  have h2 := takeDigits_exact (padVals w n) rest (padVals_lt w n)
  rw [padVals_length] at h2
  exact h2

theorem parseField_padChars (w n : ℕ) (hw : 1 ≤ w) (rest : List Char) :
    parseField w (padChars w n ++ rest) = some (n % 10 ^ w, w, rest) := by
  have hne : padVals w n ≠ [] := by
    intro hnil
    have hl := padVals_length w n
    rw [hnil] at hl
    simp at hl
    omega
  simp [parseField, takeDigits_padChars, digitsToNat_padVals, padVals_length, hne]

theorem parseField_padChars_nil (w n : ℕ) (hw : 1 ≤ w) :
    parseField w (padChars w n) = some (n % 10 ^ w, w, []) := by
  have h2 := parseField_padChars w n hw []
  rwa [List.append_nil] at h2

theorem takeDigits_length_le (k : ℕ) (cs : List Char) :
    (takeDigits k cs).1.length ≤ k := by
  induction k generalizing cs with
  | zero => simp [takeDigits]
  | succ k ih =>
    cases cs with
    | nil => simp [takeDigits]
    | cons c cs =>
      by_cases h : isDig c = true
      · simp only [takeDigits, h, if_true, List.length_cons]
        exact Nat.succ_le_succ (ih cs)
      · simp [takeDigits, h]

theorem takeDigits_lt (k : ℕ) (cs : List Char) :
    ∀ v ∈ (takeDigits k cs).1, v < 10 := by
  induction k generalizing cs with
  | zero => simp [takeDigits]
  | succ k ih =>
    cases cs with
    | nil => simp [takeDigits]
    | cons c cs =>
      by_cases h : isDig c = true
      · simp only [takeDigits, h, if_true, List.mem_cons]
        intro v hv
        rcases hv with rfl | hv
        · have hb := h
          simp [isDig] at hb
          unfold digitVal
          omega
        · exact ih cs v hv
      · simp [takeDigits, h]

theorem foldl_digits_lt (ds : List ℕ) : ∀ acc : ℕ, (∀ v ∈ ds, v < 10) →
    List.foldl (fun a d => 10 * a + d) acc ds < (acc + 1) * 10 ^ ds.length := by
  induction ds with
  | nil =>
    intro acc _
    simp
  | cons d ds ih =>
    intro acc h10
    simp only [List.length_cons, List.foldl_cons]
    have h1 := ih (10 * acc + d) (fun v hv => h10 v (List.mem_cons_of_mem d hv))
    have hd : d < 10 := h10 d (List.mem_cons_self d ds)
    have h2 : (10 * acc + d + 1) * 10 ^ ds.length ≤ ((acc + 1) * 10) * 10 ^ ds.length :=
      Nat.mul_le_mul_right _ (by omega)
    have h3 : ((acc + 1) * 10) * 10 ^ ds.length = (acc + 1) * 10 ^ (ds.length + 1) := by
      ring
    exact lt_of_lt_of_le h1 (le_of_le_of_eq h2 h3)

theorem digitsToNat_lt (ds : List ℕ) (h : ∀ v ∈ ds, v < 10) :
    digitsToNat ds < 10 ^ ds.length := by
  have h2 := foldl_digits_lt ds 0 h
  simpa [digitsToNat] using h2

theorem parseField_bound {w : ℕ} {cs : List Char} {v n : ℕ} {rest : List Char}
    (h : parseField w cs = some (v, n, rest)) :
    v < 10 ^ n ∧ 1 ≤ n ∧ n ≤ w := by
  simp only [parseField] at h
  split at h
  · exact Option.noConfusion h
  · rename_i hne
    simp only [Option.some.injEq, Prod.mk.injEq] at h
    obtain ⟨rfl, rfl, -⟩ := h
    refine ⟨digitsToNat_lt _ (takeDigits_lt w cs), ?_, takeDigits_length_le w cs⟩
    have hnil : (takeDigits w cs).1 ≠ [] := by
      intro hnil
      rw [hnil] at hne
      exact hne rfl
    have hpos := List.length_pos.mpr hnil
    omega

theorem usec_bound {f fn : ℕ} (hf : f < 10 ^ fn) (h1 : 1 ≤ fn) (h6 : fn ≤ 6) :
    f * 10 ^ (6 - fn) ≤ 999999 := by
  interval_cases fn <;> norm_num at hf ⊢ <;> omega

theorem valid_branch1 {y j hh mm ss f fn : ℕ}
    (hcj : ¬(j < 1 ∨ 366 < j)) (hle : j ≤ daysInYear y)
    (hch : ¬(23 < hh)) (hcm : ¬(59 < mm)) (hcs : ¬(59 < ss))
    (hcy : ¬(y < 1 ∨ 9999 < y))
    (hf : f < 10 ^ fn) (hn1 : 1 ≤ fn) (hn6 : fn ≤ 6) :
    ValidDT ⟨y, j, hh, mm, ss, f * 10 ^ (6 - fn)⟩ := by
  exact ⟨(by omega : 1 ≤ y), (by omega : y ≤ 9999), (by omega : 1 ≤ j), hle,
    (by omega : hh ≤ 23), (by omega : mm ≤ 59), (by omega : ss ≤ 59),
    usec_bound hf hn1 hn6⟩

theorem valid_branch2 {y j hh mm ss f fn : ℕ}
    (hcj : ¬(j < 1 ∨ 366 < j)) (hgt : ¬(j ≤ daysInYear y))
    (hch : ¬(23 < hh)) (hcm : ¬(59 < mm)) (hcs : ¬(59 < ss))
    (hcy : ¬(y + 1 < 1 ∨ 9999 < y + 1))
    (hf : f < 10 ^ fn) (hn1 : 1 ≤ fn) (hn6 : fn ≤ 6) :
    ValidDT ⟨y + 1, j - daysInYear y, hh, mm, ss, f * 10 ^ (6 - fn)⟩ := by
  have hdy := daysInYear_or y
  have hdy1 := daysInYear_or (y + 1)
  exact ⟨(by omega : 1 ≤ y + 1), (by omega : y + 1 ≤ 9999),
    (by omega : 1 ≤ j - daysInYear y),
    (by omega : j - daysInYear y ≤ daysInYear (y + 1)),
    (by omega : hh ≤ 23), (by omega : mm ≤ 59), (by omega : ss ≤ 59),
    usec_bound hf hn1 hn6⟩

/-- Inversion: every `datetime` that `strptime` produces satisfies the range
invariant `ValidDT`. -/
theorem strptimeChars_valid {cs : List Char} {d : PyDateTime}
    (h : strptimeChars cs = some d) : ValidDT d := by
  simp only [strptimeChars] at h
  repeat' split at h
  any_goals exact Option.noConfusion h
  all_goals injection h with h
  all_goals subst h
  all_goals
    first
      | (apply valid_branch1 <;>
          first
            | assumption
            | exact (parseField_bound ‹parseField 6 _ = some (_, _, _)›).1
            | exact (parseField_bound ‹parseField 6 _ = some (_, _, _)›).2.1
            | exact (parseField_bound ‹parseField 6 _ = some (_, _, _)›).2.2)
      | (apply valid_branch2 <;>
          first
            | assumption
            | exact (parseField_bound ‹parseField 6 _ = some (_, _, _)›).1
            | exact (parseField_bound ‹parseField 6 _ = some (_, _, _)›).2.1
            | exact (parseField_bound ‹parseField 6 _ = some (_, _, _)›).2.2)

/-- Formatting a range-valid `datetime` with the strftime pattern and parsing
it back with strptime returns the very same `datetime`. -/
theorem strptimeChars_format (d : PyDateTime) (hv : ValidDT d) :
    strptimeChars (formatChars d) = some d := by
  obtain ⟨h1, h2, h3, h4, h5, h6, h7, h8⟩ := hv
  have hdy := daysInYear_or d.year
  have hmody : d.year % 10000 = d.year := Nat.mod_eq_of_lt (by omega)
  have hmodj : d.doy % 1000 = d.doy := Nat.mod_eq_of_lt (by omega)
  have hmodh : d.hour % 100 = d.hour := Nat.mod_eq_of_lt (by omega)
  have hmodm : d.minute % 100 = d.minute := Nat.mod_eq_of_lt (by omega)
  have hmods : d.second % 100 = d.second := Nat.mod_eq_of_lt (by omega)
  have hmodu : d.usec % 1000000 = d.usec := Nat.mod_eq_of_lt (by omega)
  have hj0 : ¬d.doy = 0 := by omega
  have hj366 : d.doy ≤ 366 := by omega
  have hy0 : ¬d.year = 0 := by omega
  have hy9 : ¬9999 < d.year := by omega
  simp [strptimeChars, formatChars, parseField_padChars, parseField_padChars_nil,
    expectChar, hmody, hmodj, hmodh, hmodm, hmods, hmodu, hj0, hj366, h5, h6,
    h7, hy0, hy9, h4]

/-! ## Claims about `convert_orbit_time` -/

/-- C5 counterexample: the string 2000:3:15:27:47.271 does not match the
spec's exact fixed-width pattern (the day-of-year is not 3 digits and the
fraction is not 6 digits), yet the run does not fail: `strptime` accepts it
and converts it (to 2000 day 3, 15:27:47.271000). -/
theorem fixed_width_pattern_counterexample :
    specFixedWidthPattern ("2000:3:15:27:47.271") = false ∧
    convert_orbit_time [("2000:3:15:27:47.271")] =
      some [⟨2000, 3, 15, 27, 47, 271000⟩] :=
  ⟨by decide, by decide⟩

/-- C5 amended: entry and exit strings are parsed independently by
`strptime(·, "%Y:%j:%H:%M:%S.%f")`, which requires a 4-digit year but also
accepts non-zero-padded day-of-year and time fields and 1-to-6 fraction
digits; whenever any value fails to parse under that (lenient) pattern, the
whole run fails fast with a `ValueError` (modelled by `none`) — the row is
never silently skipped. -/
theorem malformed_timestamp_fails_run (rawtimes : List String) (i : ℕ)
    (hi : i < rawtimes.length)
    (hbad : strptimeOrbit (rawtimes.getD i ("")) = none) :
    convert_orbit_time rawtimes = none := by
  induction rawtimes generalizing i with
  | nil => simp at hi
  | cons a l ih =>
    cases i with
    | zero =>
      simp only [List.getD_cons_zero] at hbad
      simp [convert_orbit_time, hbad]
    | succ i =>
      simp only [List.getD_cons_succ] at hbad
      have hl : convert_orbit_time l = none := ih i (by simpa using hi) hbad
      cases ha : strptimeOrbit a with
      | none => simp [convert_orbit_time, ha]
      | some d => simp [convert_orbit_time, ha, hl]

/-- C5 amended witness: a second row with a wrong delimiter makes the whole
conversion fail. -/
theorem malformed_timestamp_fails_run_witness :
    convert_orbit_time
      [("2000:003:15:27:47.271000"), ("2000-003:15:27:47.271000")] = none :=
  malformed_timestamp_fails_run
    [("2000:003:15:27:47.271000"), ("2000-003:15:27:47.271000")] 1
    (by decide) (by decide)

/-- C7: round-trip — a calendar string accepted by `convert_orbit_time` and
converted back to a calendar string by the standard decomposition (`strftime`
with the same pattern) denotes the very same instant: re-converting the
formatted string returns the identical `datetime`, so the instant is
reproduced to microsecond precision (exactly). -/
theorem calendar_string_roundtrip (s : String) (d : PyDateTime)
    (hp : convert_orbit_time [s] = some [d]) :
    convert_orbit_time [formatOrbit d] = some [d] := by
  have hs : strptimeOrbit s = some d := by
    cases ha : strptimeOrbit s with
    | none => simp [convert_orbit_time, ha] at hp
    | some d2 =>
      simp [convert_orbit_time, ha] at hp
      rw [hp]
  have hv : ValidDT d := strptimeChars_valid (show strptimeChars s.data = some d from hs)
  have hf : strptimeOrbit (formatOrbit d) = some d :=
    show strptimeChars (formatChars d) = some d from strptimeChars_format d hv
  simp [convert_orbit_time, hf]

/-- C7 witness: the instant 2000 day-of-year 3, 15:27:47.271000, entering as
the non-padded string 2000:3:15:27:47.271, round-trips. -/
theorem calendar_string_roundtrip_witness :
    convert_orbit_time [formatOrbit ⟨2000, 3, 15, 27, 47, 271000⟩] =
      some [⟨2000, 3, 15, 27, 47, 271000⟩] :=
  calendar_string_roundtrip ("2000:3:15:27:47.271") ⟨2000, 3, 15, 27, 47, 271000⟩
    (by decide)

/-- C2 witness: a two-sample sequence, one day apart, at the mission epoch. -/
theorem anchored_conversion_close_witness :
    ∃ out, convert_chandra_time [(0 : ℚ), 86400] = some out ∧
      |out.getD 1 0 - specFullConversion (([(0 : ℚ), 86400]).getD 1 0)| ≤
        1 / 1000000 :=
  anchored_conversion_close [(0 : ℚ), 86400] 1 (by simp)

/-- C3 witness: strictly increasing raw times convert in strictly increasing
order. -/
theorem chandra_time_strict_mono_witness :
    ∃ out, convert_chandra_time [(0 : ℚ), 86400] = some out ∧
      out.getD 0 0 < out.getD 1 0 :=
  chandra_time_strict_mono [(0 : ℚ), 86400] 0 1 (by simp) (by simp)
    (by norm_num)

/-- C8 witness: the raw sample -883612800 s (the Unix epoch in mission time)
converts to the zero-reference constant. -/
theorem unix_epoch_sample_converts_to_zero_reference_witness :
    ∃ out, convert_chandra_time [-(883612800 : ℚ)] = some out ∧
      out.head? = some (epoch2num 0) :=
  unix_epoch_sample_converts_to_zero_reference (-(883612800 : ℚ)) []
    (by norm_num [cxcEpochOffset, toordinal, daysBeforeYear])

end Radzone
